import Mathlib

/-!
Shallow embedding of the `massBindingTarget` CLI (`main.go`): a scanner that
searches directories for plot files of two formats (native MassDB "m1" and
Chia-compatible "m2"), classifies file names, parses headers through external
collaborators, filters (plotted state for m1, keystore ownership for m2),
derives binding targets, aggregates the results into a `BindingList`,
deduplicates by target, and writes a JSON report.

External collaborators (header parsers, target derivation, the keystore, the
file system and `os.Stat`) are modelled as function-valued fields of an
environment record `Env`; the cooperative cancellation channel is modelled by
`interrupted : Nat → Bool`, giving for each file-boundary poll (polls are
numbered globally in execution order) whether a signal is pending in the
channel at that poll.
-/

deriving instance DecidableEq for Except

abbrev Err := String

/-- Proof type constants `poc.ProofTypeDefault` / `poc.ProofTypeChia` from the
external `poc` package, modelled as an enumeration (their concrete numeric
values are defined outside this repository; the code only stores them). -/
inductive ProofType where
  | proofTypeDefault
  | proofTypeChia
deriving DecidableEq, Repr

/-- `massutil.BindingPlot`: target bytes, format type and size. -/
structure BindingPlot where
  target : String
  type : ProofType
  size : Nat
deriving DecidableEq, Repr

/-- `massutil.BindingList` as produced by `getOfflineBindingList`. -/
structure BindingList where
  plots : List BindingPlot
  totalCount : Nat
  defaultCount : Nat
  chiaCount : Nat
deriving DecidableEq, Repr

/-- Header info of a native MassDB file (`massutil.MassDBInfoV1`): the fields
read by this program. -/
structure MassDBInfoV1 where
  publicKey : String
  bitLength : Nat
  plotted : Bool
deriving DecidableEq, Repr

/-- Header info of a Chia plot file (`massutil.MassDBInfoV2`): the fields read
by this program. -/
structure MassDBInfoV2 where
  poolPublicKey : String
  farmerPublicKey : String
  plotID : String
  k : Nat
deriving DecidableEq, Repr

/-- The keystore collaborator (`chiawallet.Keystore`): private-key lookup by
public key, returning an error when the key is absent. -/
structure Keystore where
  getPoolPrivateKey : String → Except Err String
  getFarmerPrivateKey : String → Except Err String

/-- Result of `os.Stat`: the only field the program inspects on success. -/
structure FileStat where
  isDir : Bool
deriving DecidableEq, Repr

/-- An `os.Stat` error; the program only distinguishes `os.IsNotExist`. -/
structure OsErr where
  isNotExist : Bool
deriving DecidableEq, Repr

/-- Environment of external collaborators used by the program. -/
structure Env where
  absPath : String → Except Err String
  stat : String → Except OsErr FileStat
  readDir : String → Except Err (List String)
  parseV1 : String → Except Err MassDBInfoV1
  parseV2 : String → Except Err MassDBInfoV2
  deriveV1 : String → Nat → Except Err String
  deriveV2 : String → Nat → Except Err String
  loadKeystore : String → Except Err Keystore
  writeFile : String → BindingList → Option Err
  interrupted : Nat → Bool

/-- CLI flags captured into package-level variables at startup. -/
structure Config where
  overwrite : Bool
  listAll : Bool
  keystore : String
  plotType : String
  dirs : List String
deriving Repr

/- ### Filename classifier -/

/-- ASCII decimal digit test (`\d` in the Go regular expressions). -/
def isAsciiDigit (c : Char) : Bool := decide ('0' ≤ c) && decide (c ≤ '9')

/-- Character class `[A-F0-9]` of the Go regular expressions. -/
def isUpperHex (c : Char) : Bool :=
  isAsciiDigit c || (decide ('A' ≤ c) && decide (c ≤ 'F'))

/-- `strings.ToUpper` on one character, modelled on the ASCII range (the
classifier patterns only accept ASCII characters). -/
def goUpperChar (c : Char) : Char :=
  if decide ('a' ≤ c) && decide (c ≤ 'z') then Char.ofNat (c.toNat - 32) else c

/-- The uppercased character sequence of a file name
(`strings.ToUpper(fileName)`). -/
def upName (s : String) : List Char := s.toList.map goUpperChar

/-- The characters of the literal `".MASSDB"`. -/
def massdbSuffix : List Char := ['.', 'M', 'A', 'S', 'S', 'D', 'B']

/-- The characters of the literal `".PLOT"`. -/
def plotSuffix : List Char := ['.', 'P', 'L', 'O', 'T']

/-- The characters of the literal `"PLOT-K"`. -/
def plotKHead : List Char := ['P', 'L', 'O', 'T', '-', 'K']

/-- `strings.HasSuffix`. -/
def hasSuffixB (suf s : List Char) : Bool :=
  decide (s.drop (s.length - suf.length) = suf)

/-- Consume an expected literal from the front of the input; return the rest. -/
def expectStr : List Char → List Char → Option (List Char)
  | [], cs => some cs
  | _ :: _, [] => none
  | l :: ls, c :: cs => if c = l then expectStr ls cs else none

/-- Consume exactly `n` characters satisfying `p`; return the rest. -/
def expectCount (p : Char → Bool) (n : Nat) (cs : List Char) :
    Option (List Char) :=
  if ((cs.take n).length == n) && (cs.take n).all p then some (cs.drop n)
  else none

/-- Matcher for `^\d+_[A-F0-9]{66}_\d{2}\.MASSDB$` after the leading digit run:
`_`, 66 hex characters, `_`, 2 digits, leaving the remainder. -/
def chainV1 (cs : List Char) : Option (List Char) :=
  ((expectStr ['_'] (cs.dropWhile isAsciiDigit)).bind
      (expectCount isUpperHex 66)).bind
    (fun r => (expectStr ['_'] r).bind (expectCount isAsciiDigit 2))

/-- The anchored regular expression `^\d+_[A-F0-9]{66}_\d{2}\.MASSDB$` of
`getOfflineBindingListV1`.  The leading `\d+` must extend to the first
non-digit character (which the pattern then requires to be `_`), so maximal
munch is the only possible match. -/
def regexV1 (cs : List Char) : Bool :=
  !(cs.takeWhile isAsciiDigit).isEmpty && decide (chainV1 cs = some massdbSuffix)

/-- One `-\d{2}` group of the V2 pattern. -/
def dashTwoDigits (cs : List Char) : Option (List Char) :=
  (expectStr ['-'] cs).bind (expectCount isAsciiDigit 2)

/-- Matcher chain for `^PLOT-K\d{2}-\d{4}(-\d{2}){4}-[A-F0-9]{64}\.PLOT$`,
leaving the remainder after the 64 hex characters. -/
def chainV2 (cs : List Char) : Option (List Char) :=
  ((((((((expectStr plotKHead cs).bind
        (expectCount isAsciiDigit 2)).bind
        (expectStr ['-'])).bind
        (expectCount isAsciiDigit 4)).bind
        dashTwoDigits).bind
        dashTwoDigits).bind
        dashTwoDigits).bind
        dashTwoDigits).bind
    (fun r => (expectStr ['-'] r).bind (expectCount isUpperHex 64))

/-- The anchored regular expression
`^PLOT-K\d{2}-\d{4}(-\d{2}){4}-[A-F0-9]{64}\.PLOT$` of
`getOfflineBindingListV2`. -/
def regexV2 (cs : List Char) : Bool := decide (chainV2 cs = some plotSuffix)

/-- Classifier of `getOfflineBindingListV1`:
`strings.HasSuffix(strings.ToUpper(name), ".MASSDB") &&
regExpB.MatchString(strings.ToUpper(name))`. -/
def matchNameV1 (fileName : String) : Bool :=
  hasSuffixB massdbSuffix (upName fileName) && regexV1 (upName fileName)

/-- Classifier of `getOfflineBindingListV2`:
`strings.HasSuffix(strings.ToUpper(name), ".PLOT") &&
regExpB.MatchString(strings.ToUpper(name))`. -/
def matchNameV2 (fileName : String) : Bool :=
  hasSuffixB plotSuffix (upName fileName) && regexV2 (upName fileName)

/- ### Format extractors -/

/-- `filepath.Join` of a directory and a file name. -/
def joinPath (dir file : String) : String := dir ++ "/" ++ file

/-- Outcome of a directory walk: either cancelled by the interrupt signal
(the Go code then does `return nil, nil`), or done with a value. -/
inductive ScanOut (α : Type) where
  | cancelled : ScanOut α
  | done : α → ScanOut α
deriving DecidableEq, Repr

/-- The per-file loop of `getOfflineBindingListV1` over one directory's
entries; `n` counts the interrupt polls performed so far and `acc` is the
plot list collected so far. -/
def processFilesV1 (env : Env) (all : Bool) (dbDir : String) :
    List String → Nat → List BindingPlot →
    Except Err (ScanOut (List BindingPlot × Nat))
  | [], n, acc => .ok (.done (acc, n))
  | f :: fs, n, acc =>
    if env.interrupted n then .ok .cancelled
    else if matchNameV1 f then
      match env.parseV1 (joinPath dbDir f) with
      | .error _ => processFilesV1 env all dbDir fs (n + 1) acc
      | .ok info =>
        if !info.plotted && !all then processFilesV1 env all dbDir fs (n + 1) acc
        else
          match env.deriveV1 info.publicKey info.bitLength with
          | .error e => .error e
          | .ok target =>
            processFilesV1 env all dbDir fs (n + 1)
              (acc ++ [{ target := target, type := ProofType.proofTypeDefault,
                         size := info.bitLength % 256 }])
    else processFilesV1 env all dbDir fs (n + 1) acc

/-- The directory loop of `getOfflineBindingListV1`. -/
def walkDirsV1 (env : Env) (all : Bool) :
    List String → Nat → List BindingPlot →
    Except Err (ScanOut (List BindingPlot × Nat))
  | [], n, acc => .ok (.done (acc, n))
  | d :: ds, n, acc =>
    match env.readDir d with
    | .error e => .error e
    | .ok files =>
      match processFilesV1 env all d files n acc with
      | .error e => .error e
      | .ok .cancelled => .ok .cancelled
      | .ok (.done (acc2, n2)) => walkDirsV1 env all ds n2 acc2

/-- `getOfflineBindingListV1`: scan the directories for native MassDB files.
On interrupt the Go code returns `nil, nil`, i.e. an empty list and no
error. -/
def getOfflineBindingListV1 (env : Env) (all : Bool) (dirs : List String) :
    Except Err (List BindingPlot) :=
  match walkDirsV1 env all dirs 0 [] with
  | .error e => .error e
  | .ok .cancelled => .ok []
  | .ok (.done (acc, _)) => .ok acc

/-- The `ownablePlot` closure of `getOfflineBindingListV2`: with no keystore
every file passes; with a keystore both the pool and the farmer private keys
must be present. -/
def ownablePlot (keystore : Option Keystore) (info : MassDBInfoV2) : Bool :=
  match keystore with
  | none => true
  | some ks =>
    match ks.getPoolPrivateKey info.poolPublicKey with
    | .error _ => false
    | .ok _ =>
      match ks.getFarmerPrivateKey info.farmerPublicKey with
      | .error _ => false
      | .ok _ => true

/-- The per-file loop of `getOfflineBindingListV2` over one directory's
entries.  The `all` flag is accepted but never used by the V2 extractor. -/
def processFilesV2 (env : Env) (keystore : Option Keystore) (dbDir : String) :
    List String → Nat → List BindingPlot →
    Except Err (ScanOut (List BindingPlot × Nat))
  | [], n, acc => .ok (.done (acc, n))
  | f :: fs, n, acc =>
    if env.interrupted n then .ok .cancelled
    else if matchNameV2 f then
      match env.parseV2 (joinPath dbDir f) with
      | .error _ => processFilesV2 env keystore dbDir fs (n + 1) acc
      | .ok info =>
        if ownablePlot keystore info then
          match env.deriveV2 info.plotID info.k with
          | .error e => .error e
          | .ok target =>
            processFilesV2 env keystore dbDir fs (n + 1)
              (acc ++ [{ target := target, type := ProofType.proofTypeChia,
                         size := info.k % 256 }])
        else processFilesV2 env keystore dbDir fs (n + 1) acc
    else processFilesV2 env keystore dbDir fs (n + 1) acc

/-- The directory loop of `getOfflineBindingListV2`. -/
def walkDirsV2 (env : Env) (keystore : Option Keystore) :
    List String → Nat → List BindingPlot →
    Except Err (ScanOut (List BindingPlot × Nat))
  | [], n, acc => .ok (.done (acc, n))
  | d :: ds, n, acc =>
    match env.readDir d with
    | .error e => .error e
    | .ok files =>
      match processFilesV2 env keystore d files n acc with
      | .error e => .error e
      | .ok .cancelled => .ok .cancelled
      | .ok (.done (acc2, n2)) => walkDirsV2 env keystore ds n2 acc2

/-- Keystore loading at the start of `getOfflineBindingListV2`: the keystore
stays `nil` when no path was given, otherwise a load failure is returned. -/
def loadKeystoreOpt (env : Env) (keystoreFile : String) :
    Except Err (Option Keystore) :=
  if keystoreFile = "" then .ok none
  else
    match env.loadKeystore keystoreFile with
    | .error e => .error e
    | .ok ks => .ok (some ks)

/-- `getOfflineBindingListV2`: scan the directories for Chia plot files. -/
def getOfflineBindingListV2 (env : Env) (all : Bool) (dirs : List String)
    (keystoreFile : String) : Except Err (List BindingPlot) :=
  match loadKeystoreOpt env keystoreFile with
  | .error e => .error e
  | .ok keystore =>
    match walkDirsV2 env keystore dirs 0 [] with
    | .error e => .error e
    | .ok .cancelled => .ok []
    | .ok (.done (acc, _)) => .ok acc

/- ### Aggregator -/

/-- The `filepath.Abs` loop of `getOfflineBindingList` over the configured
directories (first failure aborts). -/
def mapAbs (env : Env) : List String → Except Err (List String)
  | [] => .ok []
  | d :: ds =>
    match env.absPath d with
    | .error e => .error e
    | .ok a =>
      match mapAbs env ds with
      | .error e => .error e
      | .ok rest => .ok (a :: rest)

/-- `getOfflineBindingList`: dispatch on the `--type` flag, run the matching
extractor, and build the `BindingList` with per-format counts taken from the
pre-deduplication plot list length. -/
def getOfflineBindingList (env : Env) (cfg : Config) : Except Err BindingList :=
  match mapAbs env cfg.dirs with
  | .error e => .error e
  | .ok absDirs =>
    if cfg.plotType = "m1" then
      match getOfflineBindingListV1 env cfg.listAll absDirs with
      | .error e => .error e
      | .ok plots =>
        .ok { plots := plots, totalCount := plots.length + 0,
              defaultCount := plots.length, chiaCount := 0 }
    else if cfg.plotType = "m2" then
      match getOfflineBindingListV2 env cfg.listAll absDirs cfg.keystore with
      | .error e => .error e
      | .ok plots =>
        .ok { plots := plots, totalCount := 0 + plots.length,
              defaultCount := 0, chiaCount := plots.length }
    else .error "invalid --type flag, should be m1 (for native MassDB) or m2 (for Chia Plot)"

/-- Stable deduplication by target: drop a plot whose target was already
seen, keeping the first occurrence. -/
def dedupByTarget (seen : List String) : List BindingPlot → List BindingPlot
  | [] => []
  | p :: ps =>
    if p.target ∈ seen then dedupByTarget seen ps
    else p :: dedupByTarget (p.target :: seen) ps

/-- Modelled from the spec: `massutil.BindingList.RemoveDuplicate` lives in
the external mass-core library, not in this repository's source.  Per the
spec it removes later entries whose `target` bytes exactly equal an earlier
entry's (stable, first occurrence wins), recomputes `totalCount` as the
post-deduplication length, and passes `defaultCount`/`chiaCount` through
unchanged. -/
def removeDuplicate (list : BindingList) : BindingList :=
  { plots := dedupByTarget [] list.plots,
    totalCount := (dedupByTarget [] list.plots).length,
    defaultCount := list.defaultCount,
    chiaCount := list.chiaCount }

/- ### The CLI action and exit status -/

/-- Which branch of `app.Action` a run ends in. -/
inductive AppResult where
  | absFailed : Err → AppResult
  | dirRefused : AppResult
  | overwriteRefused : Option OsErr → AppResult
  | scanFailed : Err → AppResult
  | nothingSaved : AppResult
  | writeFailed : Err → AppResult
  | written : BindingList → AppResult
deriving DecidableEq, Repr

/-- The `app.Action` closure of `main`, from the `filepath.Abs` of the export
filename argument to the final write.  `dirRefused` is the branch where the
filename is an existing directory (the code logs and does `return err` with
the nil error of the successful `os.Stat`); `overwriteRefused` is the branch
where the file check `!os.IsNotExist(err) && !overwrite` fires, returning
that same stat error (nil when the file exists). -/
def appAction (env : Env) (filenameArg : String) (cfg : Config) : AppResult :=
  match env.absPath filenameArg with
  | .error e => .absFailed e
  | .ok abs =>
    if (match env.stat abs with
        | .ok fi => fi.isDir
        | .error _ => false) then .dirRefused
    else
      if !(match env.stat abs with
           | .error e => e.isNotExist
           | .ok _ => false) && !cfg.overwrite then
        .overwriteRefused (match env.stat abs with
          | .error e => some e
          | .ok _ => none)
      else
        match getOfflineBindingList env cfg with
        | .error e => .scanFailed e
        | .ok list0 =>
          match removeDuplicate list0 with
          | list =>
            if list.plots.length = 0 then .nothingSaved
            else
              match env.writeFile abs list with
              | some e => .writeFailed e
              | none => .written list

/-- Whether the error value returned by `app.Action` in the given branch is
nil. -/
def returnsNilError : AppResult → Bool
  | .absFailed _ => false
  | .dirRefused => true
  | .overwriteRefused statErr => statErr.isNone
  | .scanFailed _ => false
  | .nothingSaved => true
  | .writeFailed _ => false
  | .written _ => true

/-- `main` calls `log.Fatal` (non-zero exit) exactly when `app.Run` returns a
non-nil error. -/
def exitsNonZero (r : AppResult) : Bool := !(returnsNilError r)

/- ### Concrete test data for witnesses and counterexamples -/

/-- A valid native MassDB file name: ordinal `1`, a 66-hex-character public
key, bit length `32`. -/
def fnameA : String := "1_" ++ String.mk (List.replicate 66 'A') ++ "_32.MASSDB"

/-- A second valid native MassDB file name (different ordinal and key). -/
def fnameBadA : String :=
  "2_" ++ String.mk (List.replicate 66 'B') ++ "_32.MASSDB"

/-- A valid Chia plot file name with a 64-hex-character plot id. -/
def fnameB : String :=
  "PLOT-K32-2021-05-24-12-34-" ++ String.mk (List.replicate 64 'A') ++ ".PLOT"

/-- A second valid Chia plot file name. -/
def fnameBadB : String :=
  "PLOT-K32-2021-05-24-12-35-" ++ String.mk (List.replicate 64 'B') ++ ".PLOT"

/-- A plotted native MassDB header. -/
def infoA : MassDBInfoV1 := { publicKey := "PK", bitLength := 32, plotted := true }

/-- A Chia plot header. -/
def infoB : MassDBInfoV2 :=
  { poolPublicKey := "PPK", farmerPublicKey := "FPK", plotID := "PID", k := 32 }

/-- A baseline benign environment for concrete runs. -/
def baseEnv : Env :=
  { absPath := fun s => .ok s,
    stat := fun _ => .error { isNotExist := true },
    readDir := fun _ => .ok [fnameA],
    parseV1 := fun _ => .ok infoA,
    parseV2 := fun _ => .ok infoB,
    deriveV1 := fun _ _ => .ok "T1",
    deriveV2 := fun _ _ => .ok "T2",
    loadKeystore := fun _ => .error "no keystore",
    writeFile := fun _ _ => none,
    interrupted := fun _ => false }

/-- A baseline configuration for an m1 run over one directory. -/
def baseCfg : Config :=
  { overwrite := false, listAll := false, keystore := "", plotType := "m1",
    dirs := ["d"] }

/- ### Claim C9 -/

/-- Claim C9: if the export filename argument resolves to a path that exists
and is a directory, `app.Action` takes the `dirRefused` branch (so no
scanning occurs) and returns the nil error of the successful `os.Stat`, so
the process exits with a success status. -/
theorem dir_filename_exits_success (env : Env) (fname abs : String)
    (cfg : Config) (h1 : env.absPath fname = .ok abs)
    (h2 : env.stat abs = .ok { isDir := true }) :
    appAction env fname cfg = .dirRefused ∧
    exitsNonZero (appAction env fname cfg) = false := by
  simp [appAction, h1, h2, exitsNonZero, returnsNilError]

/-- Witness for C9 at a concrete environment. -/
theorem dir_filename_exits_success_witness :
    appAction { baseEnv with stat := fun _ => .ok { isDir := true } } "out" baseCfg
        = .dirRefused ∧
    exitsNonZero (appAction { baseEnv with stat := fun _ => .ok { isDir := true } }
        "out" baseCfg) = false :=
  dir_filename_exits_success _ "out" "out" baseCfg rfl rfl

/- ### Claim C2 (code bug) -/

/-- Claim C2, evaluated at the failing input: the export file exists as a
regular file and `--overwrite` is not set.  The run is refused before any
scanning (branch `overwriteRefused`), but the stat error returned by the Go
code is the nil error of the successful `os.Stat`, so the process exits with
a success status — contradicting the claimed non-zero exit. -/
theorem existing_file_refused_but_exits_zero :
    appAction { baseEnv with stat := fun _ => .ok { isDir := false } } "out" baseCfg
        = .overwriteRefused none ∧
    exitsNonZero (appAction { baseEnv with stat := fun _ => .ok { isDir := false } }
        "out" baseCfg) = false := by
  constructor <;> rfl

/- ### Claim C10 -/

/-- Claim C10: in a format-B run with a non-empty keystore path, a failure to
load the keystore aborts the entire run with that error; the conclusion holds
for every directory list and before any directory listing is consulted. -/
theorem keystore_load_failure_aborts (env : Env) (all : Bool)
    (dirs : List String) (s : String) (e : Err) (h1 : s ≠ "")
    (h2 : env.loadKeystore s = .error e) :
    getOfflineBindingListV2 env all dirs s = .error e := by
  simp [getOfflineBindingListV2, loadKeystoreOpt, h1, h2]

/-- Witness for C10 at a concrete environment. -/
theorem keystore_load_failure_aborts_witness :
    getOfflineBindingListV2 baseEnv false ["d"] "ks.json" = .error "no keystore" :=
  keystore_load_failure_aborts baseEnv false ["d"] "ks.json" "no keystore"
    (by decide) rfl

/- ### Claim C4 -/

/-- Claim C4: for both format extractors a header-parse failure on one file is
non-fatal — a directory containing one corrupt file and one valid file yields
exactly the valid file's plot, with no error. -/
theorem parse_failure_skips :
    (∀ (env : Env) (all : Bool) (d bad good : String) (info : MassDBInfoV1)
        (t msg : String),
      (∀ n, env.interrupted n = false) →
      env.readDir d = .ok [bad, good] →
      matchNameV1 bad = true →
      env.parseV1 (joinPath d bad) = .error msg →
      matchNameV1 good = true →
      env.parseV1 (joinPath d good) = .ok info →
      (info.plotted || all) = true →
      env.deriveV1 info.publicKey info.bitLength = .ok t →
      getOfflineBindingListV1 env all [d] =
        .ok [{ target := t, type := ProofType.proofTypeDefault,
               size := info.bitLength % 256 }]) ∧
    (∀ (env : Env) (all : Bool) (d bad good : String) (info : MassDBInfoV2)
        (t msg ksf : String) (ko : Option Keystore),
      (∀ n, env.interrupted n = false) →
      env.readDir d = .ok [bad, good] →
      matchNameV2 bad = true →
      env.parseV2 (joinPath d bad) = .error msg →
      matchNameV2 good = true →
      env.parseV2 (joinPath d good) = .ok info →
      loadKeystoreOpt env ksf = .ok ko →
      ownablePlot ko info = true →
      env.deriveV2 info.plotID info.k = .ok t →
      getOfflineBindingListV2 env all [d] ksf =
        .ok [{ target := t, type := ProofType.proofTypeChia,
               size := info.k % 256 }]) := by
  constructor
  · intro env all d bad good info t msg hni hrd hmb hpb hmg hpg hpl hdv
    have hnp : (!info.plotted && !all) = false := by
      cases hb : info.plotted <;> cases ha : all <;> simp_all
    simp [getOfflineBindingListV1, walkDirsV1, processFilesV1, hni, hrd, hmb,
      hpb, hmg, hpg, hnp, hdv]
  · intro env all d bad good info t msg ksf ko hni hrd hmb hpb hmg hpg hks how hdv
    simp [getOfflineBindingListV2, walkDirsV2, processFilesV2, hni, hrd, hmb,
      hpb, hmg, hpg, hks, how, hdv]

/-- Witness for C4: concrete two-file directories for both extractors. -/
theorem parse_failure_skips_witness :
    getOfflineBindingListV1
        { baseEnv with
          readDir := fun _ => .ok [fnameBadA, fnameA]
          parseV1 := fun p =>
            if p = joinPath "d" fnameBadA then .error "corrupt" else .ok infoA }
        false ["d"] =
      .ok [{ target := "T1", type := ProofType.proofTypeDefault, size := 32 }] ∧
    getOfflineBindingListV2
        { baseEnv with
          readDir := fun _ => .ok [fnameBadB, fnameB]
          parseV2 := fun p =>
            if p = joinPath "d" fnameBadB then .error "corrupt" else .ok infoB }
        false ["d"] "" =
      .ok [{ target := "T2", type := ProofType.proofTypeChia, size := 32 }] := by
  constructor
  · exact parse_failure_skips.1 _ false "d" fnameBadA fnameA infoA "T1" "corrupt"
      (fun _ => rfl) rfl (by decide) (by decide) (by decide) (by decide) rfl rfl
  · exact parse_failure_skips.2 _ false "d" fnameBadB fnameB infoB "T2" "corrupt"
      "" none (fun _ => rfl) rfl (by decide) (by decide) (by decide) (by decide)
      rfl rfl rfl

/- ### Claim C8 -/

/-- Claim C8: in a format-A scan a file whose parsed header says it is not
plotted is excluded unless `--all` was given, and a plotted file is always
eligible. -/
theorem plotted_state_filter (env : Env) (d f : String) (info : MassDBInfoV1)
    (t : String) (hni : ∀ n, env.interrupted n = false)
    (hrd : env.readDir d = .ok [f]) (hm : matchNameV1 f = true)
    (hp : env.parseV1 (joinPath d f) = .ok info)
    (hdv : env.deriveV1 info.publicKey info.bitLength = .ok t) :
    (info.plotted = true → ∀ all,
      getOfflineBindingListV1 env all [d] =
        .ok [{ target := t, type := ProofType.proofTypeDefault,
               size := info.bitLength % 256 }]) ∧
    (info.plotted = false →
      getOfflineBindingListV1 env true [d] =
        .ok [{ target := t, type := ProofType.proofTypeDefault,
               size := info.bitLength % 256 }] ∧
      getOfflineBindingListV1 env false [d] = .ok []) := by
  constructor
  · intro hpl all
    simp [getOfflineBindingListV1, walkDirsV1, processFilesV1, hni, hrd, hm,
      hp, hpl, hdv]
  · intro hpl
    constructor
    · simp [getOfflineBindingListV1, walkDirsV1, processFilesV1, hni, hrd, hm,
        hp, hpl, hdv]
    · simp [getOfflineBindingListV1, walkDirsV1, processFilesV1, hni, hrd, hm,
        hp, hpl, hdv]

/-- Witness for C8: a non-plotted header is kept with `--all` and dropped
without it. -/
theorem plotted_state_filter_witness :
    getOfflineBindingListV1
        { baseEnv with parseV1 := fun _ => .ok { infoA with plotted := false } }
        true ["d"] =
      .ok [{ target := "T1", type := ProofType.proofTypeDefault, size := 32 }] ∧
    getOfflineBindingListV1
        { baseEnv with parseV1 := fun _ => .ok { infoA with plotted := false } }
        false ["d"] = .ok [] := by
  exact (plotted_state_filter _ "d" fnameA { infoA with plotted := false } "T1"
    (fun _ => rfl) rfl (by decide) rfl rfl).2 rfl

/- ### Claim C6 -/

/-- Both private keys for the header's public keys are present in the
keystore. -/
def hasKeys (ks : Keystore) (info : MassDBInfoV2) : Prop :=
  (∃ sk, ks.getPoolPrivateKey info.poolPublicKey = .ok sk) ∧
  (∃ sk, ks.getFarmerPrivateKey info.farmerPublicKey = .ok sk)

/-- The `ownablePlot` closure holds for a supplied keystore exactly when both
private keys are present. -/
theorem ownablePlot_some_iff (ks : Keystore) (info : MassDBInfoV2) :
    ownablePlot (some ks) info = true ↔ hasKeys ks info := by
  unfold ownablePlot hasKeys
  cases hp : ks.getPoolPrivateKey info.poolPublicKey with
  | error e => simp [hp]
  | ok sk =>
    cases hf : ks.getFarmerPrivateKey info.farmerPublicKey with
    | error e => simp [hp, hf]
    | ok sk2 => simp [hp, hf]

/-- Claim C6: in a format-B scan of a structurally valid, parseable file,
with a keystore supplied the file is included iff the keystore holds both the
pool and the farmer private key (and it is excluded, without error,
otherwise); with no keystore supplied the file is included. -/
theorem ownership_filter (env : Env) (all : Bool) (d f : String)
    (info : MassDBInfoV2) (t : String)
    (hni : ∀ n, env.interrupted n = false)
    (hrd : env.readDir d = .ok [f]) (hm : matchNameV2 f = true)
    (hp : env.parseV2 (joinPath d f) = .ok info)
    (hdv : env.deriveV2 info.plotID info.k = .ok t) :
    (∀ s ks, s ≠ "" → env.loadKeystore s = .ok ks →
      (getOfflineBindingListV2 env all [d] s =
          .ok [{ target := t, type := ProofType.proofTypeChia,
                 size := info.k % 256 }] ↔ hasKeys ks info) ∧
      (¬ hasKeys ks info → getOfflineBindingListV2 env all [d] s = .ok [])) ∧
    getOfflineBindingListV2 env all [d] "" =
      .ok [{ target := t, type := ProofType.proofTypeChia,
             size := info.k % 256 }] := by
  constructor
  · intro s ks hs hks
    have hload : loadKeystoreOpt env s = .ok (some ks) := by
      simp [loadKeystoreOpt, hs, hks]
    by_cases hok : hasKeys ks info
    · have how : ownablePlot (some ks) info = true :=
        (ownablePlot_some_iff ks info).mpr hok
      constructor
      · constructor
        · intro _; exact hok
        · intro _
          simp [getOfflineBindingListV2, walkDirsV2, processFilesV2, hni, hrd,
            hm, hp, hload, how, hdv]
      · intro hno; exact absurd hok hno
    · have how : ownablePlot (some ks) info = false := by
        cases hw : ownablePlot (some ks) info
        · rfl
        · exact absurd ((ownablePlot_some_iff ks info).mp hw) hok
      have hrun : getOfflineBindingListV2 env all [d] s = .ok [] := by
        simp [getOfflineBindingListV2, walkDirsV2, processFilesV2, hni, hrd,
          hm, hp, hload, how, hdv]
      constructor
      · constructor
        · intro hr
          rw [hrun] at hr
          simp at hr
        · intro hok2; exact absurd hok2 hok
      · intro _; exact hrun
  · have hload : loadKeystoreOpt env "" = .ok none := by
      simp [loadKeystoreOpt]
    simp [getOfflineBindingListV2, walkDirsV2, processFilesV2, hni, hrd, hm,
      hp, hload, ownablePlot, hdv]

/-- A keystore holding only the pool key of `infoB`. -/
def poolOnlyKeystore : Keystore :=
  { getPoolPrivateKey := fun pk => if pk = "PPK" then .ok "SKP" else .error "no key",
    getFarmerPrivateKey := fun _ => .error "no key" }

/-- A keystore holding both keys of `infoB`. -/
def bothKeysKeystore : Keystore :=
  { getPoolPrivateKey := fun pk => if pk = "PPK" then .ok "SKP" else .error "no key",
    getFarmerPrivateKey := fun pk => if pk = "FPK" then .ok "SKF" else .error "no key" }

/-- Witness for C6: with both keys the file is included; with the farmer key
missing it is excluded; with no keystore it is included. -/
theorem ownership_filter_witness :
    getOfflineBindingListV2
        { baseEnv with
          readDir := fun _ => .ok [fnameB]
          loadKeystore := fun _ => .ok bothKeysKeystore } false ["d"] "ks" =
      .ok [{ target := "T2", type := ProofType.proofTypeChia, size := 32 }] ∧
    getOfflineBindingListV2
        { baseEnv with
          readDir := fun _ => .ok [fnameB]
          loadKeystore := fun _ => .ok poolOnlyKeystore } false ["d"] "ks" =
      .ok [] ∧
    getOfflineBindingListV2 { baseEnv with readDir := fun _ => .ok [fnameB] }
        false ["d"] "" =
      .ok [{ target := "T2", type := ProofType.proofTypeChia, size := 32 }] := by
  refine ⟨?_, ?_, ?_⟩
  · exact ((ownership_filter _ false "d" fnameB infoB "T2" (fun _ => rfl) rfl
      (by decide) rfl rfl).1 "ks" bothKeysKeystore (by decide) rfl).1.mpr
      ⟨⟨"SKP", rfl⟩, ⟨"SKF", rfl⟩⟩
  · refine ((ownership_filter _ false "d" fnameB infoB "T2" (fun _ => rfl) rfl
      (by decide) rfl rfl).1 "ks" poolOnlyKeystore (by decide) rfl).2 ?_
    rintro ⟨-, ⟨sk, hsk⟩⟩
    simp [poolOnlyKeystore] at hsk
  · exact (ownership_filter _ false "d" fnameB infoB "T2" (fun _ => rfl) rfl
      (by decide) rfl rfl).2

/- ### Claim C5 -/

/-- Splitting the V1 per-file loop over a concatenation of entries. -/
theorem processFilesV1_append (env : Env) (all : Bool) (d : String) :
    ∀ (xs ys : List String) (n : Nat) (acc : List BindingPlot),
    processFilesV1 env all d (xs ++ ys) n acc =
      match processFilesV1 env all d xs n acc with
      | .error e => .error e
      | .ok .cancelled => .ok .cancelled
      | .ok (.done (acc2, n2)) => processFilesV1 env all d ys n2 acc2 := by
  intro xs
  induction xs with
  | nil => intro ys n acc; simp [processFilesV1]
  | cons f fs ih =>
    intro ys n acc
    by_cases hi : env.interrupted n
    · simp [processFilesV1, hi]
    · by_cases hm : matchNameV1 f
      · cases hp : env.parseV1 (joinPath d f) with
        | error e => simp [processFilesV1, hi, hm, hp, ih]
        | ok info =>
          cases hpl : (!info.plotted && !all) with
          | true => simp [processFilesV1, hi, hm, hp, hpl, ih]
          | false =>
            cases hd : env.deriveV1 info.publicKey info.bitLength with
            | error e => simp [processFilesV1, hi, hm, hp, hpl, hd]
            | ok t => simp [processFilesV1, hi, hm, hp, hpl, hd, ih]
      · simp [processFilesV1, hi, hm, ih]

/-- Splitting the V2 per-file loop over a concatenation of entries. -/
theorem processFilesV2_append (env : Env) (ko : Option Keystore) (d : String) :
    ∀ (xs ys : List String) (n : Nat) (acc : List BindingPlot),
    processFilesV2 env ko d (xs ++ ys) n acc =
      match processFilesV2 env ko d xs n acc with
      | .error e => .error e
      | .ok .cancelled => .ok .cancelled
      | .ok (.done (acc2, n2)) => processFilesV2 env ko d ys n2 acc2 := by
  intro xs
  induction xs with
  | nil => intro ys n acc; simp [processFilesV2]
  | cons f fs ih =>
    intro ys n acc
    by_cases hi : env.interrupted n
    · simp [processFilesV2, hi]
    · by_cases hm : matchNameV2 f
      · cases hp : env.parseV2 (joinPath d f) with
        | error e => simp [processFilesV2, hi, hm, hp, ih]
        | ok info =>
          cases how : ownablePlot ko info with
          | false => simp [processFilesV2, hi, hm, hp, how, ih]
          | true =>
            cases hd : env.deriveV2 info.plotID info.k with
            | error e => simp [processFilesV2, hi, hm, hp, how, hd]
            | ok t => simp [processFilesV2, hi, hm, hp, how, hd, ih]
      · simp [processFilesV2, hi, hm, ih]

/-- Claim C5: for both extractors, a binding-target derivation failure on any
file (after an arbitrary cleanly processed prefix of the directory) aborts
the whole run with that error; no plot list is produced. -/
theorem derivation_failure_aborts :
    (∀ (env : Env) (all : Bool) (d : String) (pre : List String) (f : String)
        (post : List String) (acc1 : List BindingPlot) (n1 : Nat)
        (info : MassDBInfoV1) (e : Err),
      env.readDir d = .ok (pre ++ f :: post) →
      processFilesV1 env all d pre 0 [] = .ok (.done (acc1, n1)) →
      env.interrupted n1 = false →
      matchNameV1 f = true →
      env.parseV1 (joinPath d f) = .ok info →
      (info.plotted || all) = true →
      env.deriveV1 info.publicKey info.bitLength = .error e →
      getOfflineBindingListV1 env all [d] = .error e) ∧
    (∀ (env : Env) (d : String) (pre : List String) (f : String)
        (post : List String) (acc1 : List BindingPlot) (n1 : Nat)
        (info : MassDBInfoV2) (e : Err) (all : Bool) (ksf : String)
        (ko : Option Keystore),
      loadKeystoreOpt env ksf = .ok ko →
      env.readDir d = .ok (pre ++ f :: post) →
      processFilesV2 env ko d pre 0 [] = .ok (.done (acc1, n1)) →
      env.interrupted n1 = false →
      matchNameV2 f = true →
      env.parseV2 (joinPath d f) = .ok info →
      ownablePlot ko info = true →
      env.deriveV2 info.plotID info.k = .error e →
      getOfflineBindingListV2 env all [d] ksf = .error e) := by
  constructor
  · intro env all d pre f post acc1 n1 info e hrd hpre hi hm hp hpl hdv
    have hnp : (!info.plotted && !all) = false := by
      cases hb : info.plotted <;> cases ha : all <;> simp_all
    simp [getOfflineBindingListV1, walkDirsV1, hrd, processFilesV1_append,
      hpre, processFilesV1, hi, hm, hp, hnp, hdv]
  · intro env d pre f post acc1 n1 info e all ksf ko hks hrd hpre hi hm hp how hdv
    simp [getOfflineBindingListV2, walkDirsV2, hks, hrd, processFilesV2_append,
      hpre, processFilesV2, hi, hm, hp, how, hdv]

/-- Witness for C5: a failing derivation aborts both extractors' runs. -/
theorem derivation_failure_aborts_witness :
    getOfflineBindingListV1
        { baseEnv with deriveV1 := fun _ _ => .error "derive fail" }
        false ["d"] = .error "derive fail" ∧
    getOfflineBindingListV2
        { baseEnv with
          readDir := fun _ => .ok [fnameB]
          deriveV2 := fun _ _ => .error "derive fail" }
        false ["d"] "" = .error "derive fail" := by
  constructor
  · exact derivation_failure_aborts.1 _ false "d" [] fnameA [] [] 0 infoA
      "derive fail" rfl rfl rfl (by decide) rfl rfl rfl
  · exact derivation_failure_aborts.2 _ "d" [] fnameB [] [] 0 infoB
      "derive fail" false "" none rfl rfl rfl rfl (by decide) rfl rfl rfl

/- ### Claim C3 -/

/-- The same environment with the interrupt channel never tripped. -/
def noInterrupt (env : Env) : Env := { env with interrupted := fun _ => false }

/-- The V1 per-file loop either never observes the signal (and equals the
uninterrupted loop) or stops as cancelled. -/
theorem processFilesV1_noInterrupt_or_cancelled (env : Env) (all : Bool)
    (d : String) :
    ∀ (fs : List String) (n : Nat) (acc : List BindingPlot),
    processFilesV1 env all d fs n acc =
        processFilesV1 (noInterrupt env) all d fs n acc ∨
    processFilesV1 env all d fs n acc = .ok .cancelled := by
  intro fs
  induction fs with
  | nil => intro n acc; left; rfl
  | cons f fs ih =>
    intro n acc
    by_cases hi : env.interrupted n
    · right; simp [processFilesV1, hi]
    · have hni : (noInterrupt env).interrupted n = false := rfl
      by_cases hm : matchNameV1 f
      · cases hp : env.parseV1 (joinPath d f) with
        | error e =>
          have hp2 : (noInterrupt env).parseV1 (joinPath d f) = .error e := hp
          rcases ih (n + 1) acc with h | h
          · left; simp [processFilesV1, hi, hni, hm, hp, hp2, h]
          · right; simp [processFilesV1, hi, hm, hp, h]
        | ok info =>
          have hp2 : (noInterrupt env).parseV1 (joinPath d f) = .ok info := hp
          cases hpl : (!info.plotted && !all) with
          | true =>
            rcases ih (n + 1) acc with h | h
            · left; simp [processFilesV1, hi, hni, hm, hp, hp2, hpl, h]
            · right; simp [processFilesV1, hi, hm, hp, hpl, h]
          | false =>
            cases hd : env.deriveV1 info.publicKey info.bitLength with
            | error e =>
              have hd2 : (noInterrupt env).deriveV1 info.publicKey info.bitLength
                  = .error e := hd
              left; simp [processFilesV1, hi, hni, hm, hp, hp2, hpl, hd, hd2]
            | ok t =>
              have hd2 : (noInterrupt env).deriveV1 info.publicKey info.bitLength
                  = .ok t := hd
              rcases ih (n + 1)
                  (acc ++ [⟨t, ProofType.proofTypeDefault, info.bitLength % 256⟩])
                  with h | h
              · left; simp [processFilesV1, hi, hni, hm, hp, hp2, hpl, hd, hd2, h]
              · right; simp [processFilesV1, hi, hm, hp, hpl, hd, h]
      · rcases ih (n + 1) acc with h | h
        · left; simp [processFilesV1, hi, hni, hm, h]
        · right; simp [processFilesV1, hi, hm, h]

/-- The V2 per-file loop either never observes the signal or stops as
cancelled. -/
theorem processFilesV2_noInterrupt_or_cancelled (env : Env)
    (ko : Option Keystore) (d : String) :
    ∀ (fs : List String) (n : Nat) (acc : List BindingPlot),
    processFilesV2 env ko d fs n acc =
        processFilesV2 (noInterrupt env) ko d fs n acc ∨
    processFilesV2 env ko d fs n acc = .ok .cancelled := by
  intro fs
  induction fs with
  | nil => intro n acc; left; rfl
  | cons f fs ih =>
    intro n acc
    by_cases hi : env.interrupted n
    · right; simp [processFilesV2, hi]
    · have hni : (noInterrupt env).interrupted n = false := rfl
      by_cases hm : matchNameV2 f
      · cases hp : env.parseV2 (joinPath d f) with
        | error e =>
          have hp2 : (noInterrupt env).parseV2 (joinPath d f) = .error e := hp
          rcases ih (n + 1) acc with h | h
          · left; simp [processFilesV2, hi, hni, hm, hp, hp2, h]
          · right; simp [processFilesV2, hi, hm, hp, h]
        | ok info =>
          have hp2 : (noInterrupt env).parseV2 (joinPath d f) = .ok info := hp
          cases how : ownablePlot ko info with
          | false =>
            rcases ih (n + 1) acc with h | h
            · left; simp [processFilesV2, hi, hni, hm, hp, hp2, how, h]
            · right; simp [processFilesV2, hi, hm, hp, how, h]
          | true =>
            cases hd : env.deriveV2 info.plotID info.k with
            | error e =>
              have hd2 : (noInterrupt env).deriveV2 info.plotID info.k
                  = .error e := hd
              left; simp [processFilesV2, hi, hni, hm, hp, hp2, how, hd, hd2]
            | ok t =>
              have hd2 : (noInterrupt env).deriveV2 info.plotID info.k
                  = .ok t := hd
              rcases ih (n + 1)
                  (acc ++ [⟨t, ProofType.proofTypeChia, info.k % 256⟩])
                  with h | h
              · left; simp [processFilesV2, hi, hni, hm, hp, hp2, how, hd, hd2, h]
              · right; simp [processFilesV2, hi, hm, hp, how, hd, h]
      · rcases ih (n + 1) acc with h | h
        · left; simp [processFilesV2, hi, hni, hm, h]
        · right; simp [processFilesV2, hi, hm, h]

/-- The V1 directory walk either equals the uninterrupted walk or is
cancelled. -/
theorem walkDirsV1_noInterrupt_or_cancelled (env : Env) (all : Bool) :
    ∀ (dirs : List String) (n : Nat) (acc : List BindingPlot),
    walkDirsV1 env all dirs n acc = walkDirsV1 (noInterrupt env) all dirs n acc ∨
    walkDirsV1 env all dirs n acc = .ok .cancelled := by
  intro dirs
  induction dirs with
  | nil => intro n acc; left; rfl
  | cons d ds ih =>
    intro n acc
    cases hrd : env.readDir d with
    | error e =>
      have hrd2 : (noInterrupt env).readDir d = .error e := hrd
      left; simp [walkDirsV1, hrd, hrd2]
    | ok files =>
      have hrd2 : (noInterrupt env).readDir d = .ok files := hrd
      rcases processFilesV1_noInterrupt_or_cancelled env all d files n acc with
        hpf | hpf
      · cases hres : processFilesV1 (noInterrupt env) all d files n acc with
        | error e => left; simp [walkDirsV1, hrd, hrd2, hpf, hres]
        | ok out =>
          cases out with
          | cancelled => right; simp [walkDirsV1, hrd, hpf, hres]
          | done r =>
            rcases ih r.2 r.1 with h | h
            · left; simp [walkDirsV1, hrd, hrd2, hpf, hres, h]
            · right; simp [walkDirsV1, hrd, hpf, hres, h]
      · right; simp [walkDirsV1, hrd, hpf]

/-- The V2 directory walk either equals the uninterrupted walk or is
cancelled. -/
theorem walkDirsV2_noInterrupt_or_cancelled (env : Env) (ko : Option Keystore) :
    ∀ (dirs : List String) (n : Nat) (acc : List BindingPlot),
    walkDirsV2 env ko dirs n acc = walkDirsV2 (noInterrupt env) ko dirs n acc ∨
    walkDirsV2 env ko dirs n acc = .ok .cancelled := by
  intro dirs
  induction dirs with
  | nil => intro n acc; left; rfl
  | cons d ds ih =>
    intro n acc
    cases hrd : env.readDir d with
    | error e =>
      have hrd2 : (noInterrupt env).readDir d = .error e := hrd
      left; simp [walkDirsV2, hrd, hrd2]
    | ok files =>
      have hrd2 : (noInterrupt env).readDir d = .ok files := hrd
      rcases processFilesV2_noInterrupt_or_cancelled env ko d files n acc with
        hpf | hpf
      · cases hres : processFilesV2 (noInterrupt env) ko d files n acc with
        | error e => left; simp [walkDirsV2, hrd, hrd2, hpf, hres]
        | ok out =>
          cases out with
          | cancelled => right; simp [walkDirsV2, hrd, hpf, hres]
          | done r =>
            rcases ih r.2 r.1 with h | h
            · left; simp [walkDirsV2, hrd, hrd2, hpf, hres, h]
            · right; simp [walkDirsV2, hrd, hpf, hres, h]
      · right; simp [walkDirsV2, hrd, hpf]

/-- Claim C3: for both extractors, a cancellation signal observed at a file
boundary makes the run return an empty plot list with no error, no matter how
many plots were already collected (first two parts: trip after an arbitrary
cleanly processed prefix); and a run never returns a partial list — it equals
the uninterrupted run or returns the empty list with no error (last two
parts). -/
theorem cancellation_empty_result :
    (∀ (env : Env) (all : Bool) (d : String) (rest pre : List String)
        (f : String) (post : List String) (acc1 : List BindingPlot) (n1 : Nat),
      env.readDir d = .ok (pre ++ f :: post) →
      processFilesV1 env all d pre 0 [] = .ok (.done (acc1, n1)) →
      env.interrupted n1 = true →
      getOfflineBindingListV1 env all (d :: rest) = .ok []) ∧
    (∀ (env : Env) (all : Bool) (d : String) (rest pre : List String)
        (f : String) (post : List String) (acc1 : List BindingPlot) (n1 : Nat)
        (ksf : String) (ko : Option Keystore),
      loadKeystoreOpt env ksf = .ok ko →
      env.readDir d = .ok (pre ++ f :: post) →
      processFilesV2 env ko d pre 0 [] = .ok (.done (acc1, n1)) →
      env.interrupted n1 = true →
      getOfflineBindingListV2 env all (d :: rest) ksf = .ok []) ∧
    (∀ (env : Env) (all : Bool) (dirs : List String),
      getOfflineBindingListV1 env all dirs =
          getOfflineBindingListV1 (noInterrupt env) all dirs ∨
      getOfflineBindingListV1 env all dirs = .ok []) ∧
    (∀ (env : Env) (all : Bool) (dirs : List String) (ksf : String),
      getOfflineBindingListV2 env all dirs ksf =
          getOfflineBindingListV2 (noInterrupt env) all dirs ksf ∨
      getOfflineBindingListV2 env all dirs ksf = .ok []) := by
  refine ⟨?_, ?_, ?_, ?_⟩
  · intro env all d rest pre f post acc1 n1 hrd hpre hi
    simp [getOfflineBindingListV1, walkDirsV1, hrd, processFilesV1_append,
      hpre, processFilesV1, hi]
  · intro env all d rest pre f post acc1 n1 ksf ko hks hrd hpre hi
    simp [getOfflineBindingListV2, walkDirsV2, hks, hrd, processFilesV2_append,
      hpre, processFilesV2, hi]
  · intro env all dirs
    rcases walkDirsV1_noInterrupt_or_cancelled env all dirs 0 [] with h | h
    · left; simp [getOfflineBindingListV1, h]
    · right; simp [getOfflineBindingListV1, h]
  · intro env all dirs ksf
    cases hks : loadKeystoreOpt env ksf with
    | error e =>
      have hks2 : loadKeystoreOpt (noInterrupt env) ksf = .error e := by
        simp only [loadKeystoreOpt] at hks ⊢
        exact hks
      left; simp [getOfflineBindingListV2, hks, hks2]
    | ok ko =>
      have hks2 : loadKeystoreOpt (noInterrupt env) ksf = .ok ko := by
        simp only [loadKeystoreOpt] at hks ⊢
        exact hks
      rcases walkDirsV2_noInterrupt_or_cancelled env ko dirs 0 [] with h | h
      · left; simp [getOfflineBindingListV2, hks, hks2, h]
      · right; simp [getOfflineBindingListV2, hks, h]

/-- Witness for C3: the signal trips at the second file boundary after one
plot was already collected, and the run returns the empty list with no
error. -/
theorem cancellation_empty_result_witness :
    getOfflineBindingListV1
        { baseEnv with
          readDir := fun _ => .ok [fnameA, fnameA]
          interrupted := fun n => n == 1 }
        false ["d"] = .ok [] := by
  exact cancellation_empty_result.1 _ false "d" [] [fnameA] fnameA [] _ 1
    rfl rfl rfl

/- ### Claim C1 -/

/-- Counts of any successfully produced (pre-deduplication) binding list: the
per-format counts are taken from the pre-dedup length and sum to it. -/
theorem getOfflineBindingList_counts (env : Env) (cfg : Config)
    (l : BindingList) (h : getOfflineBindingList env cfg = .ok l) :
    l.totalCount = l.defaultCount + l.chiaCount ∧
    l.defaultCount + l.chiaCount = l.plots.length := by
  unfold getOfflineBindingList at h
  split at h
  · cases h
  · split at h
    · split at h
      · cases h
      · cases h; simp
    · split at h
      · split at h
        · cases h
        · cases h; simp
      · cases h

/-- Deduplication leaves a list with pairwise distinct targets (none of them
seen before) unchanged. -/
theorem dedupByTarget_pairwise :
    ∀ (ps : List BindingPlot) (seen : List String),
    List.Pairwise (fun p q => p.target ≠ q.target) ps →
    (∀ p ∈ ps, p.target ∉ seen) →
    dedupByTarget seen ps = ps := by
  intro ps
  induction ps with
  | nil => intro seen _ _; rfl
  | cons p ps ih =>
    intro seen hpw hseen
    rw [List.pairwise_cons] at hpw
    have hns : p.target ∉ seen := hseen p (by simp)
    simp only [dedupByTarget, if_neg hns]
    rw [ih (p.target :: seen) hpw.2 ?_]
    intro q hq
    simp only [List.mem_cons]
    push_neg
    exact ⟨Ne.symm (hpw.1 q hq), hseen q (List.mem_cons_of_mem p hq)⟩

/-- The plot produced for `fnameA` under `baseEnv`. -/
def dupPlot : BindingPlot := ⟨"T1", ProofType.proofTypeDefault, 32⟩

/-- An m1 configuration listing the same directory twice — a legitimate
command line (`-d d -d d`) whose scan collects the same plot file twice. -/
def cfgDup : Config := { baseCfg with dirs := ["d", "d"] }

/-- Counterexample to claim C1 as stated: this run produces a binding list
with two plots sharing one target but a single format, so no cross-format
duplicate targets exist, yet after `RemoveDuplicate` the recomputed
`totalCount` (1) differs from `defaultCount + chiaCount` (2). -/
theorem counts_invariant_counterexample :
    getOfflineBindingList baseEnv cfgDup =
      .ok ⟨[dupPlot, dupPlot], 2, 2, 0⟩ ∧
    (∀ p ∈ [dupPlot, dupPlot], ∀ q ∈ [dupPlot, dupPlot],
      p.target = q.target → p.type = q.type) ∧
    (removeDuplicate ⟨[dupPlot, dupPlot], 2, 2, 0⟩).defaultCount +
        (removeDuplicate ⟨[dupPlot, dupPlot], 2, 2, 0⟩).chiaCount ≠
      (removeDuplicate ⟨[dupPlot, dupPlot], 2, 2, 0⟩).totalCount := by
  exact ⟨by decide, by decide, by decide⟩

/-- Claim C1 (amended): for any binding list produced by a run, after
`RemoveDuplicate` the `totalCount` equals the length of the plots sequence;
and `defaultCount + chiaCount` equals `totalCount` when the run produced no
duplicate targets at all (same-format duplicates also violate the sum, so
"no cross-format duplicates" is not enough). -/
theorem dedup_count_invariant (env : Env) (cfg : Config) (list0 : BindingList)
    (h : getOfflineBindingList env cfg = .ok list0) :
    (removeDuplicate list0).totalCount = (removeDuplicate list0).plots.length ∧
    (List.Pairwise (fun p q => p.target ≠ q.target) list0.plots →
      (removeDuplicate list0).defaultCount + (removeDuplicate list0).chiaCount =
        (removeDuplicate list0).totalCount) := by
  constructor
  · rfl
  · intro hpw
    have hc := getOfflineBindingList_counts env cfg list0 h
    have hd : dedupByTarget [] list0.plots = list0.plots :=
      dedupByTarget_pairwise list0.plots [] hpw (by intro p _; simp)
    simp [removeDuplicate, hd, hc.2]

/-- Witness for the amended C1 at a concrete duplicate-free run. -/
theorem dedup_count_invariant_witness :
    (removeDuplicate ⟨[dupPlot], 1, 1, 0⟩).defaultCount +
        (removeDuplicate ⟨[dupPlot], 1, 1, 0⟩).chiaCount =
      (removeDuplicate ⟨[dupPlot], 1, 1, 0⟩).totalCount :=
  (dedup_count_invariant baseEnv baseCfg ⟨[dupPlot], 1, 1, 0⟩ (by decide)).2
    (by decide)

/- ### Claim C7: classifier support lemmas -/

/-- Taking the length of the left part of a concatenation returns it. -/
theorem takeAppend {α : Type} (xs ys : List α) : (xs ++ ys).take xs.length = xs := by
  induction xs with
  | nil => rfl
  | cons x xs ih => simp [ih]

/-- Dropping the length of the left part of a concatenation returns the
right part. -/
theorem dropAppend {α : Type} (xs ys : List α) : (xs ++ ys).drop xs.length = ys := by
  induction xs with
  | nil => rfl
  | cons x xs ih => simp [ih]

/-- `expectStr` succeeds exactly on inputs starting with the literal. -/
theorem expectStr_eq_some :
    ∀ (ls cs r : List Char), expectStr ls cs = some r ↔ cs = ls ++ r := by
  intro ls
  induction ls with
  | nil => intro cs r; simp [expectStr]
  | cons l ls ih =>
    intro cs r
    cases cs with
    | nil => simp [expectStr]
    | cons c cs =>
      by_cases h : c = l
      · subst h; simp [expectStr, ih]
      · simp [expectStr, h]

/-- `expectStr` on an input starting with the literal. -/
theorem expectStrApp (ls r : List Char) : expectStr ls (ls ++ r) = some r :=
  (expectStr_eq_some ls (ls ++ r) r).mpr rfl

/-- `expectCount` succeeds exactly on inputs starting with `n` characters
satisfying `p`. -/
theorem expectCount_eq_some (p : Char → Bool) (n : Nat) (cs r : List Char) :
    expectCount p n cs = some r ↔
    ∃ xs, cs = xs ++ r ∧ xs.length = n ∧ xs.all p = true := by
  constructor
  · intro h
    unfold expectCount at h
    split at h
    · rename_i hc
      rw [Bool.and_eq_true, beq_iff_eq] at hc
      injection h with h
      refine ⟨cs.take n, ?_, hc.1, hc.2⟩
      rw [← h, List.take_append_drop]
    · cases h
  · rintro ⟨xs, rfl, hlen, hall⟩
    subst hlen
    unfold expectCount
    rw [takeAppend, dropAppend]
    simp [hall]

/-- `expectCount` on an input starting with a fitting block. -/
theorem expectCountApp (p : Char → Bool) (xs r : List Char)
    (hall : xs.all p = true) : expectCount p xs.length (xs ++ r) = some r :=
  (expectCount_eq_some p xs.length (xs ++ r) r).mpr ⟨xs, rfl, rfl, hall⟩

/-- `dashTwoDigits` succeeds exactly on inputs starting with `-` and two
digits. -/
theorem dashTwoDigits_eq_some (cs r : List Char) :
    dashTwoDigits cs = some r ↔
    ∃ xs, cs = '-' :: (xs ++ r) ∧ xs.length = 2 ∧ xs.all isAsciiDigit = true := by
  unfold dashTwoDigits
  rw [Option.bind_eq_some]
  constructor
  · rintro ⟨r1, h1, h2⟩
    rw [expectStr_eq_some] at h1
    rw [expectCount_eq_some] at h2
    obtain ⟨xs, rfl, hlen, hall⟩ := h2
    exact ⟨xs, by simpa using h1, hlen, hall⟩
  · rintro ⟨xs, rfl, hlen, hall⟩
    refine ⟨xs ++ r, (expectStr_eq_some _ _ _).mpr rfl, ?_⟩
    rw [expectCount_eq_some]
    exact ⟨xs, rfl, hlen, hall⟩

/-- `hasSuffixB` holds exactly when the string decomposes with the suffix at
the end. -/
theorem hasSuffixB_iff (suf s : List Char) :
    hasSuffixB suf s = true ↔ ∃ pre, s = pre ++ suf := by
  unfold hasSuffixB
  rw [decide_eq_true_iff]
  constructor
  · intro h
    refine ⟨s.take (s.length - suf.length), ?_⟩
    nth_rewrite 1 [← List.take_append_drop (s.length - suf.length) s]
    rw [h]
  · rintro ⟨pre, rfl⟩
    have hl : (pre ++ suf).length - suf.length = pre.length := by
      simp [List.length_append]
    rw [hl, dropAppend]

/-- `takeWhile` and `dropWhile` on a block of satisfying elements followed by
a failing element. -/
theorem takeDropWhile_append {α : Type} (p : α → Bool) :
    ∀ (xs : List α) (y : α) (ys : List α), (∀ x ∈ xs, p x = true) → p y = false →
    (xs ++ y :: ys).takeWhile p = xs ∧ (xs ++ y :: ys).dropWhile p = y :: ys := by
  intro xs
  induction xs with
  | nil =>
    intro y ys _ hy
    simp [List.takeWhile_cons, List.dropWhile_cons, hy]
  | cons x xs ih =>
    intro y ys hall hy
    have hx : p x = true := hall x (by simp)
    have ihr := ih y ys (fun z hz => hall z (by simp [hz])) hy
    simp [List.takeWhile_cons, List.dropWhile_cons, hx, ihr.1, ihr.2]

/-- The spec's structural pattern for native-format names: a non-empty
ordinal digit run, an underscore, a 66-hex-character public key, an
underscore, a two-digit bit length, and the `.MASSDB` suffix — nothing
else. -/
def specMatchV1 (cs : List Char) : Prop :=
  ∃ ds hex dd, cs = ds ++ '_' :: (hex ++ '_' :: (dd ++ massdbSuffix)) ∧
    ds ≠ [] ∧ ds.all isAsciiDigit = true ∧
    hex.length = 66 ∧ hex.all isUpperHex = true ∧
    dd.length = 2 ∧ dd.all isAsciiDigit = true

/-- The V1 regular expression accepts exactly the spec's structural
pattern. -/
theorem regexV1_iff (cs : List Char) : regexV1 cs = true ↔ specMatchV1 cs := by
  unfold regexV1 specMatchV1
  rw [Bool.and_eq_true, decide_eq_true_iff]
  constructor
  · rintro ⟨hne, hchain⟩
    unfold chainV1 at hchain
    obtain ⟨r2, h12, h3⟩ := Option.bind_eq_some.mp hchain
    obtain ⟨r1, h1, h2⟩ := Option.bind_eq_some.mp h12
    obtain ⟨r3, h4, h5⟩ := Option.bind_eq_some.mp h3
    rw [expectStr_eq_some] at h1 h4
    rw [expectCount_eq_some] at h2 h5
    obtain ⟨hex, rfl, hhl, hha⟩ := h2
    obtain ⟨dd, rfl, hdl, hda⟩ := h5
    subst h4
    refine ⟨cs.takeWhile isAsciiDigit, hex, dd, ?_, ?_, ?_, hhl, hha, hdl, hda⟩
    · conv_lhs => rw [← List.takeWhile_append_dropWhile isAsciiDigit cs]
      rw [h1]
      simp
    · intro hnil
      rw [hnil] at hne
      simp at hne
    · rw [List.all_eq_true]
      intro x hx
      exact List.mem_takeWhile_imp hx
  · rintro ⟨ds, hex, dd, rfl, hne, hda0, hhl, hha, hdl, hda⟩
    have htd := takeDropWhile_append isAsciiDigit ds '_'
      (hex ++ '_' :: (dd ++ massdbSuffix)) (List.all_eq_true.mp hda0) (by decide)
    constructor
    · rw [htd.1]
      simp [hne]
    · unfold chainV1
      rw [htd.2]
      have e1 : expectStr ['_'] ('_' :: (hex ++ '_' :: (dd ++ massdbSuffix))) =
          some (hex ++ '_' :: (dd ++ massdbSuffix)) := expectStrApp ['_'] _
      rw [e1, Option.some_bind]
      have e2 : expectCount isUpperHex 66 (hex ++ '_' :: (dd ++ massdbSuffix)) =
          some ('_' :: (dd ++ massdbSuffix)) := by
        have h := expectCountApp isUpperHex hex ('_' :: (dd ++ massdbSuffix)) hha
        rwa [hhl] at h
      rw [e2, Option.some_bind]
      have e3 : expectStr ['_'] ('_' :: (dd ++ massdbSuffix)) =
          some (dd ++ massdbSuffix) := expectStrApp ['_'] _
      rw [e3, Option.some_bind]
      have h := expectCountApp isAsciiDigit dd massdbSuffix hda
      rwa [hdl] at h

/-- The spec's structural pattern for compatible-format names: the `PLOT-K`
prefix, a two-digit k, a four-digit segment, four further two-digit segments
(each preceded by a dash), a dash, a 64-hex-character plot id, and the
`.PLOT` suffix — nothing else. -/
def specMatchV2 (cs : List Char) : Prop :=
  ∃ kk yy mm dd hh mi hex,
    cs = plotKHead ++ (kk ++ '-' :: (yy ++ '-' :: (mm ++ '-' :: (dd ++ '-' ::
      (hh ++ '-' :: (mi ++ '-' :: (hex ++ plotSuffix))))))) ∧
    kk.length = 2 ∧ kk.all isAsciiDigit = true ∧
    yy.length = 4 ∧ yy.all isAsciiDigit = true ∧
    mm.length = 2 ∧ mm.all isAsciiDigit = true ∧
    dd.length = 2 ∧ dd.all isAsciiDigit = true ∧
    hh.length = 2 ∧ hh.all isAsciiDigit = true ∧
    mi.length = 2 ∧ mi.all isAsciiDigit = true ∧
    hex.length = 64 ∧ hex.all isUpperHex = true

/-- The V2 regular expression accepts exactly the spec's structural
pattern. -/
theorem regexV2_iff (cs : List Char) : regexV2 cs = true ↔ specMatchV2 cs := by
  unfold regexV2 specMatchV2
  rw [decide_eq_true_iff]
  constructor
  · intro h
    unfold chainV2 at h
    obtain ⟨r8, h8, h9⟩ := Option.bind_eq_some.mp h
    obtain ⟨r7, h7, hd4⟩ := Option.bind_eq_some.mp h8
    obtain ⟨r6, h6, hd3⟩ := Option.bind_eq_some.mp h7
    obtain ⟨r5, h5, hd2⟩ := Option.bind_eq_some.mp h6
    obtain ⟨r4, h4, hd1⟩ := Option.bind_eq_some.mp h5
    obtain ⟨r3, h3, hy⟩ := Option.bind_eq_some.mp h4
    obtain ⟨r2, h2, hdash⟩ := Option.bind_eq_some.mp h3
    obtain ⟨r1, h1, hk⟩ := Option.bind_eq_some.mp h2
    obtain ⟨r9, hdash2, hhex⟩ := Option.bind_eq_some.mp h9
    rw [expectStr_eq_some] at h1 hdash hdash2
    rw [expectCount_eq_some] at hk hy hhex
    rw [dashTwoDigits_eq_some] at hd1 hd2 hd3 hd4
    obtain ⟨kk, rfl, hkl, hka⟩ := hk
    subst hdash
    obtain ⟨yy, rfl, hyl, hya⟩ := hy
    obtain ⟨mm, rfl, hml, hma2⟩ := hd1
    obtain ⟨dd, rfl, hdl2, hda2⟩ := hd2
    obtain ⟨hh, rfl, hhl2, hha2⟩ := hd3
    obtain ⟨mi, rfl, hil, hia⟩ := hd4
    subst hdash2
    obtain ⟨hex, rfl, hxl, hxa⟩ := hhex
    exact ⟨kk, yy, mm, dd, hh, mi, hex, by simpa using h1, hkl, hka, hyl, hya,
      hml, hma2, hdl2, hda2, hhl2, hha2, hil, hia, hxl, hxa⟩
  · rintro ⟨kk, yy, mm, dd, hh, mi, hex, rfl, hkl, hka, hyl, hya, hml, hma2,
      hdl2, hda2, hhl2, hha2, hil, hia, hxl, hxa⟩
    unfold chainV2
    set t6 : List Char := hex ++ plotSuffix with ht6
    set t5 : List Char := mi ++ '-' :: t6 with ht5
    set t4 : List Char := hh ++ '-' :: t5 with ht4
    set t3 : List Char := dd ++ '-' :: t4 with ht3
    set t2 : List Char := mm ++ '-' :: t3 with ht2
    set t1 : List Char := yy ++ '-' :: t2 with ht1
    set t0 : List Char := kk ++ '-' :: t1 with ht0
    have e1 : expectStr plotKHead (plotKHead ++ t0) = some t0 :=
      expectStrApp plotKHead t0
    have e2 : expectCount isAsciiDigit 2 t0 = some ('-' :: t1) := by
      rw [ht0, ← hkl]
      exact expectCountApp isAsciiDigit kk ('-' :: t1) hka
    have e3 : expectStr ['-'] ('-' :: t1) = some t1 := expectStrApp ['-'] t1
    have e4 : expectCount isAsciiDigit 4 t1 = some ('-' :: t2) := by
      rw [ht1, ← hyl]
      exact expectCountApp isAsciiDigit yy ('-' :: t2) hya
    have e5 : dashTwoDigits ('-' :: t2) = some ('-' :: t3) := by
      rw [ht2]
      exact (dashTwoDigits_eq_some _ _).mpr ⟨mm, rfl, hml, hma2⟩
    have e6 : dashTwoDigits ('-' :: t3) = some ('-' :: t4) := by
      rw [ht3]
      exact (dashTwoDigits_eq_some _ _).mpr ⟨dd, rfl, hdl2, hda2⟩
    have e7 : dashTwoDigits ('-' :: t4) = some ('-' :: t5) := by
      rw [ht4]
      exact (dashTwoDigits_eq_some _ _).mpr ⟨hh, rfl, hhl2, hha2⟩
    have e8 : dashTwoDigits ('-' :: t5) = some ('-' :: t6) := by
      rw [ht5]
      exact (dashTwoDigits_eq_some _ _).mpr ⟨mi, rfl, hil, hia⟩
    have e9 : expectStr ['-'] ('-' :: t6) = some t6 := expectStrApp ['-'] t6
    simp only [e1, Option.some_bind, e2, e3, e4, e5, e6, e7, e8, e9]
    rw [ht6, ← hxl]
    exact expectCountApp isUpperHex hex plotSuffix hxa

/-- The spec's contract for the native-format classifier: the fixed suffix
and the full-string structural pattern, both on the uppercased
(case-folded) name. -/
def specClassifierV1 (fileName : String) : Prop :=
  (∃ pre, upName fileName = pre ++ massdbSuffix) ∧ specMatchV1 (upName fileName)

/-- The spec's contract for the compatible-format classifier. -/
def specClassifierV2 (fileName : String) : Prop :=
  (∃ pre, upName fileName = pre ++ plotSuffix) ∧ specMatchV2 (upName fileName)

/-- Claim C7: each format's filename classifier accepts exactly the
case-insensitive full-string pattern required by the spec (so any deviation
is rejected), and a rejected file is skipped by the extractors without being
processed. -/
theorem classifier_matches_spec :
    (∀ s, matchNameV1 s = true ↔ specClassifierV1 s) ∧
    (∀ s, matchNameV2 s = true ↔ specClassifierV2 s) ∧
    (∀ (env : Env) (all : Bool) (d f : String) (fs : List String) (n : Nat)
        (acc : List BindingPlot),
      env.interrupted n = false → matchNameV1 f = false →
      processFilesV1 env all d (f :: fs) n acc =
        processFilesV1 env all d fs (n + 1) acc) ∧
    (∀ (env : Env) (ko : Option Keystore) (d f : String) (fs : List String)
        (n : Nat) (acc : List BindingPlot),
      env.interrupted n = false → matchNameV2 f = false →
      processFilesV2 env ko d (f :: fs) n acc =
        processFilesV2 env ko d fs (n + 1) acc) := by
  refine ⟨?_, ?_, ?_, ?_⟩
  · intro s
    unfold matchNameV1 specClassifierV1
    rw [Bool.and_eq_true, hasSuffixB_iff, regexV1_iff]
  · intro s
    unfold matchNameV2 specClassifierV2
    rw [Bool.and_eq_true, hasSuffixB_iff, regexV2_iff]
  · intro env all d f fs n acc hi hm
    simp [processFilesV1, hi, hm]
  · intro env ko d f fs n acc hi hm
    simp [processFilesV2, hi, hm]

/-- Witness for C7: the concrete valid names satisfy the spec patterns, the
classifiers accept them, and concrete deviations (wrong hex length, wrong
suffix) are rejected and skipped. -/
theorem classifier_matches_spec_witness :
    specClassifierV1 fnameA ∧ specClassifierV2 fnameB ∧
    matchNameV1 "1_ABC_32.MASSDB" = false ∧
    matchNameV2 "PLOT-K32-2021-05-24-12-34-FF.PLOT" = false ∧
    processFilesV1 baseEnv false "d" ["garbage.txt"] 0 [] =
      processFilesV1 baseEnv false "d" [] 1 [] :=
  ⟨(classifier_matches_spec.1 fnameA).mp (by decide),
   (classifier_matches_spec.2.1 fnameB).mp (by decide),
   by decide, by decide,
   classifier_matches_spec.2.2.1 baseEnv false "d" "garbage.txt" [] 0 []
     rfl (by decide)⟩
